import Mathlib

/-!
Verification of the vendor-dispatch and resource-hydration core of the
SMARTerFHIR EMR integration layer.

The embedding models:
- the `EMR` vendor tag enumeration and the substring-based vendor
  resolution of `getEMRType` (src/src/Client/utils.ts);
- the endpoint registry (`getEndpointsForEmr`, `BaseClient.constructEndpoints`,
  `CernerClient` static endpoints);
- JavaScript objects as ordered association lists with JS object-spread
  semantics (later spread updates a key in place, appends new keys);
- `BaseClient` context hydration (`hydrateResource`, `createPatientSubject`,
  `createContext`), resource creation (`create`) and `getPractitionerRead`;
- the compiled `ClientFactory` (its own three-entry `getEMRType` and
  `createEMRClient` dispatch).

Exceptions are modelled with `Except Err`; `async`/`await` sequencing of the
source collapses to monadic sequencing since there is no internal
concurrency. URLs are modelled as the strings they are constructed from
(`new URL` on the statically known, well-formed endpoint constants).
-/

namespace SmarterFhir

/-- The `EMR` enumeration from src/Launcher/SmartLaunchHandler (re-exported in
src/unnamed/part_000); its members are the vendor tags used throughout. -/
inductive EMR where
  | EPIC
  | CERNER
  | ECW
  | ATHENA
  | ATHENAPRACTICE
  | SMART
  | NONE
deriving DecidableEq, Repr

/-- Errors thrown by the core, one constructor per distinct `throw` site.
`createFailed` models `new Error("It failed with:" + reason)` in
`BaseClient.create`, carrying the original cause; `typeError` models the
JavaScript `TypeError` raised by a property access on `undefined`. -/
inductive Err where
  | idNotFound
  | malformedResource
  | endpointsNotFound (emrType : EMR)
  | missingEndpoint (message : String)
  | createFailed (cause : Err)
  | invalidResponse
  | userNotPractitioner
  | typeError
deriving DecidableEq, Repr

/-- JSON-ish values of the JavaScript objects the core manipulates. Absent
fields are modelled by absence of the key, so `undefined` has no
constructor. -/
inductive Val where
  | str (s : String)
  | obj (fields : List (String × Val))
  | arr (elems : List Val)
deriving Repr

/-- A JavaScript object: ordered association list of fields. -/
abbrev Obj := List (String × Val)

/-- Field lookup (first occurrence wins, mirroring unique-key JS objects). -/
def getField : Obj → String → Option Val
  | [], _ => none
  | (k, v) :: rest, key => if k = key then some v else getField rest key

/-- The JavaScript `in` operator / truthiness of presence of a key. -/
def hasKey (o : Obj) (key : String) : Bool :=
  (getField o key).isSome

/-- JS property assignment on an object literal being built: an existing key
is updated in place (its position is kept), a new key is appended. -/
def setField : Obj → String → Val → Obj
  | [], k, v => [(k, v)]
  | (k', v') :: rest, k, v =>
      if k' = k then (k', v) :: rest else (k', v') :: setField rest k v

/-- JS object spread `{...a, ...b}`: every field of `b`, in order, is
assigned onto a copy of `a`. -/
def spreadInto (a b : Obj) : Obj :=
  b.foldl (fun acc kv => setField acc kv.1 kv.2) a

/-- JS property access `v.k` on an arbitrary value: only objects yield a
defined property; on strings and arrays the properties the core reads are
`undefined`. -/
def propGet : Val → String → Option Val
  | Val.obj fields, k => getField fields k
  | _, _ => none

/-- Containment check on character lists: does the second list start with the
first? -/
def charsStartWith : List Char → List Char → Bool
  | _, [] => true
  | [], _ :: _ => false
  | a :: as, b :: bs => a == b && charsStartWith as bs

/-- Does `sub` occur contiguously inside the second list? -/
def charsContain (sub : List Char) : List Char → Bool
  | [] => sub.isEmpty
  | c :: rest => charsStartWith (c :: rest) sub || charsContain sub rest

/-- JavaScript `String.prototype.includes`. -/
def strIncludes (s sub : String) : Bool :=
  charsContain sub.data s.data

example : strIncludes "https://fhir-ehr-code.cerner.com/r4/abc" "cerner" = true := by decide
example : strIncludes "https://fhir.epic.com/x" "cerner" = false := by decide
example : spreadInto [("a", Val.str "1"), ("b", Val.str "2")] [("b", Val.str "3"), ("c", Val.str "4")]
    = [("a", Val.str "1"), ("b", Val.str "3"), ("c", Val.str "4")] := rfl

/-- The `EMR_ENDPOINTS` triple of src/unnamed/part_002 (BaseClient); the three
URLs are modelled by the strings they are constructed from. -/
structure EMR_ENDPOINTS where
  token : String
  r4 : String
  auth : String
deriving DecidableEq, Repr

/-- `BaseClient.constructEndpoints` (src/unnamed/part_002, lines 48-60): each
argument is checked against `undefined` in order, with a distinct error
message naming the missing endpoint; when all three are defined the triple
is assembled from them. -/
def constructEndpoints : Option String → Option String → Option String → Except Err EMR_ENDPOINTS
  | none, _, _ => .error (.missingEndpoint "Token Endpoint not defined")
  | some _, none, _ => .error (.missingEndpoint "R4 Endpoint not defined")
  | some _, some _, none => .error (.missingEndpoint "Auth Endpoint not defined")
  | some tokenEP, some r4EP, some authorizeEP => .ok ⟨tokenEP, r4EP, authorizeEP⟩

namespace CernerClient

/-- `CernerClient.AUTHORIZE_ENDPOINT` (src/src/Client/utils.ts, second document). -/
def AUTHORIZE_ENDPOINT : String :=
  "https://authorization.cerner.com/tenants/ec2458f2-1e24-41c8-b71b-0e701af7583d/protocols/oauth2/profiles/smart-v1/personas/provider/authorize"

/-- `CernerClient.TOKEN_ENDPOINT`. -/
def TOKEN_ENDPOINT : String :=
  "https://authorization.cerner.com/tenants/ec2458f2-1e24-41c8-b71b-0e701af7583d/protocols/oauth2/profiles/smart-v1/token"

/-- `CernerClient.R4_ENDPOINT`. -/
def R4_ENDPOINT : String :=
  "https://fhir-ehr-code.cerner.com/r4/ec2458f2-1e24-41c8-b71b-0e701af7583d"

/-- `CernerClient.getEndpoints`. -/
def getEndpoints : Except Err EMR_ENDPOINTS :=
  constructEndpoints (some TOKEN_ENDPOINT) (some R4_ENDPOINT) (some AUTHORIZE_ENDPOINT)

end CernerClient

namespace EpicClient

/-- Modelled from the spec: the `EpicClient` class is not under src/ (only its
callers are); per §4.2 "each concrete vendor variant exposes its own static
token/resource/authorize URLs" and §8 its lookup "always returns the same
fixed triple across calls", so its three static endpoint constants are
modelled as fixed defined strings. -/
def TOKEN_ENDPOINT : String :=
  "https://fhir.epic.com/interconnect-fhir-oauth/oauth2/token"

/-- Modelled from the spec: fixed Epic resource (R4) endpoint constant. -/
def R4_ENDPOINT : String :=
  "https://fhir.epic.com/interconnect-fhir-oauth/api/FHIR/R4"

/-- Modelled from the spec: fixed Epic authorize endpoint constant. -/
def AUTHORIZE_ENDPOINT : String :=
  "https://fhir.epic.com/interconnect-fhir-oauth/oauth2/authorize"

/-- Modelled from the spec: `EpicClient.getEndpoints` dispatches to
`BaseClient.constructEndpoints` on the static constants, as `CernerClient`
(which is under src/) does. -/
def getEndpoints : Except Err EMR_ENDPOINTS :=
  constructEndpoints (some TOKEN_ENDPOINT) (some R4_ENDPOINT) (some AUTHORIZE_ENDPOINT)

end EpicClient

namespace ECWClient

/-- Modelled from the spec: the `ECWClient` class is not under src/; per §4.2
it exposes its own fixed static endpoint triple. -/
def getEndpoints : Except Err EMR_ENDPOINTS :=
  constructEndpoints (some "https://ecw-token-endpoint") (some "https://ecw-r4-endpoint")
    (some "https://ecw-authorize-endpoint")

end ECWClient

namespace AthenaClient

/-- Modelled from the spec: the `AthenaClient` class is not under src/; per
§4.2 it exposes its own fixed static endpoint triple. -/
def getEndpoints : Except Err EMR_ENDPOINTS :=
  constructEndpoints (some "https://athena-token-endpoint") (some "https://athena-r4-endpoint")
    (some "https://athena-authorize-endpoint")

end AthenaClient

namespace AthenaPracticeClient

/-- Modelled from the spec: the `AthenaPracticeClient` class is not under
src/; per §4.2 it exposes its own fixed static endpoint triple. -/
def getEndpoints : Except Err EMR_ENDPOINTS :=
  constructEndpoints (some "https://athenapractice-token-endpoint")
    (some "https://athenapractice-r4-endpoint") (some "https://athenapractice-authorize-endpoint")

end AthenaPracticeClient

/-- `getEndpointsForEmr` (src/src/Client/utils.ts, lines 18-35): dispatches to
the per-vendor static endpoints; the `SMART`, `NONE` and default branches
throw `Endpoints not found for EMR type: ...`. -/
def getEndpointsForEmr : EMR → Except Err EMR_ENDPOINTS
  | .EPIC => EpicClient.getEndpoints
  | .CERNER => CernerClient.getEndpoints
  | .ECW => ECWClient.getEndpoints
  | .ATHENAPRACTICE => AthenaPracticeClient.getEndpoints
  | .ATHENA => AthenaClient.getEndpoints
  | .SMART => .error (.endpointsNotFound .SMART)
  | .NONE => .error (.endpointsNotFound .NONE)

/-- The `EMR_MAPPING` table of `getEMRType` (src/src/Client/utils.ts,
lines 46-53), in source order. -/
def EMR_MAPPING : List (String × EMR) :=
  [("cerner", .CERNER),
   ("smarthealthit", .SMART),
   ("epic", .EPIC),
   ("ecw", .ECW),
   ("platform.athenahealth.com", .ATHENA),
   ("fhirapi.athenahealth.com", .ATHENAPRACTICE)]

/-- The client branch of `getEMRType` (src/src/Client/utils.ts, lines 56-63):
the `for`-loop over `EMR_MAPPING` returns the vendor of the first entry whose
substring occurs in `serverUrl`, falling through to `EMR.NONE`. -/
def getEMRTypeFromUrl (serverUrl : String) : EMR :=
  match EMR_MAPPING.find? (fun p => strIncludes serverUrl p.1) with
  | some p => p.2
  | none => .NONE

/-- `getEMRType` (src/src/Client/utils.ts, lines 42-69) on an arbitrary
object. `isClient` evaluates `clientOrToken.state.serverUrl !== undefined`:
when the object has no `state` field, the access `.serverUrl` on `undefined`
raises a TypeError; when `state.serverUrl` is a defined string the mapping
loop runs; otherwise the token branch tests the `"epic.eci"` claim key.
A defined non-string `serverUrl` is excluded by the TypeScript type
`state.serverUrl: string` and modelled as the TypeError of calling
`.includes` on it. -/
def getEMRType (clientOrToken : Obj) : Except Err EMR :=
  match getField clientOrToken "state" with
  | none => .error .typeError
  | some stateVal =>
    match propGet stateVal "serverUrl" with
    | some (Val.str serverUrl) => .ok (getEMRTypeFromUrl serverUrl)
    | some _ => .error .typeError
    | none =>
      if hasKey clientOrToken "epic.eci" then .ok .EPIC else .ok .NONE

example : getEMRTypeFromUrl "https://fhir-ehr-code.cerner.com/r4/abc" = EMR.CERNER := by decide
example : getEMRTypeFromUrl "https://gitlab.com/" = EMR.NONE := by decide
example : getEMRTypeFromUrl "https://ecwcerner.example/" = EMR.CERNER := by decide

/-- The session handle (the external fhirclient `Client`, named `SubClient`
in src). `patient`, `encounter` and `user` are the deferred-resolved
identifiers (`await object.id`, a string or `undefined`); `userRead` is the
resolved result of `user.read()`; `createOp` is the session's primitive
`create`; `nowISO` is the value `new Date().toISOString()` yields during
hydration. -/
structure SubClient where
  serverUrl : String
  patient : Option String
  encounter : Option String
  user : Option String
  nowISO : String
  createOp : Obj → Except Err Obj
  userRead : Except Err Obj

/-- `BaseClient.getIDfromObject` (src/unnamed/part_002, lines 94-98):
`if (!id) throw new Error("id not found")` — both `undefined` and the empty
string are falsy. -/
def getIDfromObject : Option String → Except Err String
  | none => .error .idNotFound
  | some id => if id = "" then .error .idNotFound else .ok id

/-- `BaseClient.createPatientSubject` (lines 105-114). -/
def createPatientSubject (c : SubClient) : Except Err Obj := do
  let patientID ← getIDfromObject c.patient
  pure [("subject", Val.obj [("reference", Val.str ("Patient/" ++ patientID))])]

/-- `BaseClient.createEncounterReference` (lines 120-127). -/
def createEncounterReference (c : SubClient) : Except Err Val := do
  let encounterID ← getIDfromObject c.encounter
  pure (Val.obj [("reference", Val.str ("Encounter/" ++ encounterID))])

/-- `BaseClient.createEncounterReferenceArray` (lines 133-135). -/
def createEncounterReferenceArray (c : SubClient) : Except Err Val := do
  let ref ← createEncounterReference c
  pure (Val.arr [ref])

/-- `BaseClient.createPeriod` (lines 142-147): start and end are the same
instant. -/
def createPeriod (start : String) : Val :=
  Val.obj [("start", Val.str start), ("end", Val.str start)]

/-- `BaseClient.createContext` (lines 153-163): a `context` field holding the
encounter reference array and the period at the current timestamp. -/
def createContext (c : SubClient) : Except Err Obj := do
  let encounter ← createEncounterReferenceArray c
  pure [("context", Val.obj [("encounter", encounter), ("period", createPeriod c.nowISO)])]

/-- `BaseClient.createReferenceArrayAuthor` (lines 170-179). -/
def createReferenceArrayAuthor (c : SubClient) : Except Err Obj := do
  let userID ← getIDfromObject c.user
  pure [("author", Val.arr [Val.obj [("reference", Val.str ("Practitioner/" ++ userID))]])]

/-- `BaseClient.hydrateResource` (lines 186-194):
`{...resource, ...("subject" in resource ? {} : await createPatientSubject()),
...("encounter" in resource ? {} : await createContext())}` — the two
conditional parts are awaited in literal order, then spread onto the
resource. -/
def hydrateResource (c : SubClient) (resource : Obj) : Except Err Obj := do
  let subjectPart ← if hasKey resource "subject" then pure [] else createPatientSubject c
  let contextPart ← if hasKey resource "encounter" then pure [] else createContext c
  pure (spreadInto (spreadInto resource subjectPart) contextPart)

namespace Transformer

/-- Modelled from the spec: `Transformer` (src/Resource/transformer) is not
under src/ (only its call sites in BaseClient are). Per §4.3 it is a
"structural, field-preserving conversion ... a near-identity mapping with
only shape adaptation" that "fails with `MalformedResourceError` if the
input lacks a `resourceType` discriminant"; on the untyped object model the
shape adaptation is the identity on fields. -/
def toFhirClientType (resource : Obj) : Except Err Obj :=
  if hasKey resource "resourceType" then .ok resource else .error .malformedResource

/-- Modelled from the spec: the inverse direction of §4.3, with the same
`resourceType` requirement. -/
def toR4FhirType (resource : Obj) : Except Err Obj :=
  if hasKey resource "resourceType" then .ok resource else .error .malformedResource

end Transformer

/-- Truthiness of `!resource.resourceType` in `BaseClient.create`'s response
validation: an absent field and the empty string are falsy. -/
def falsyResourceType (res : Obj) : Bool :=
  match getField res "resourceType" with
  | none => true
  | some (Val.str s) => s == ""
  | some _ => false

/-- `BaseClient.create` (src/unnamed/part_002, lines 205-230), instrumented
with a flag recording whether the session's `create` primitive was invoked:
transform, hydrate, submit; the `.then` validation error and any rejection
of the submission are both wrapped by the `.catch` into
`new Error("It failed with:" + reason)`; the result is transformed back. -/
def createWithLog (c : SubClient) (resource : Obj) : Except Err Obj × Bool :=
  match Transformer.toFhirClientType resource with
  | .error e => (.error e, false)
  | .ok transformedResource =>
    match hydrateResource c transformedResource with
    | .error e => (.error e, false)
    | .ok hydratedResource =>
      match c.createOp hydratedResource with
      | .error reason => (.error (.createFailed reason), true)
      | .ok resultResource =>
        if falsyResourceType resultResource then
          (.error (.createFailed .invalidResponse), true)
        else
          match Transformer.toR4FhirType resultResource with
          | .error e => (.error e, true)
          | .ok resultAsR4 => (.ok resultAsR4, true)

/-- `BaseClient.create` as the caller sees it. -/
def create (c : SubClient) (resource : Obj) : Except Err Obj :=
  (createWithLog c resource).1

/-- `BaseClient.getPractitionerRead` (lines 265-279): reads the user,
checks `user.resourceType == "Practitioner"`, transforms on success and
throws `User is Not a Practitioner` otherwise. -/
def getPractitionerRead (c : SubClient) : Except Err Obj := do
  let user ← c.userRead
  match getField user "resourceType" with
  | some (Val.str s) =>
    if s = "Practitioner" then Transformer.toR4FhirType user
    else .error .userNotPractitioner
  | _ => .error .userNotPractitioner

/-- The two client variants the compiled `ClientFactory`
(src/unnamed/part_001) can construct. -/
inductive ClientVariant where
  | epicClient
  | cernerClient
deriving DecidableEq, Repr

/-- `ClientFactory.prototype.getEMRType` (src/unnamed/part_001, lines 53-64):
three substring tests in order, else `EMR.NONE`. -/
def factoryGetEMRType (client : SubClient) : EMR :=
  if strIncludes client.serverUrl "cerner" then .CERNER
  else if strIncludes client.serverUrl "smarthealthit" then .SMART
  else if strIncludes client.serverUrl "epic" then .EPIC
  else .NONE

/-- `ClientFactory.prototype.createEMRClient` (src/unnamed/part_001,
lines 69-92) after the session is ready: `EPIC` and `CERNER` select their
variant, while `SMART`, `NONE` and the default branch all construct an
`EpicClient` on the same session. -/
def createEMRClient (client : SubClient) : ClientVariant × SubClient :=
  match factoryGetEMRType client with
  | .EPIC => (.epicClient, client)
  | .CERNER => (.cernerClient, client)
  | _ => (.epicClient, client)

/-- A deferred identifier "resolves to empty" when it is `undefined` or the
empty string — exactly the values `if (!id)` treats as falsy. -/
def emptyID (o : Option String) : Prop :=
  o = none ∨ o = some ""

section HelperLemmas

/-- Sequencing after a failed `Except` computation fails with it. -/
@[simp] theorem error_bind {ε α β : Type} (e : ε) (f : α → Except ε β) :
    (Except.error e >>= f : Except ε β) = Except.error e := rfl

/-- Sequencing after a successful `Except` computation continues with its
value. -/
@[simp] theorem ok_bind {ε α β : Type} (a : α) (f : α → Except ε β) :
    (Except.ok a >>= f : Except ε β) = f a := rfl

/-- `List.find?` returns the element at the first index satisfying the
predicate. -/
theorem find?_first {α : Type} (p : α → Bool) :
    ∀ (l : List α) (i : Fin l.length), p (l.get i) = true →
      (∀ j : Fin l.length, (j : ℕ) < (i : ℕ) → p (l.get j) = false) →
      l.find? p = some (l.get i) := by
  intro l
  induction l with
  | nil => intro i; exact absurd i.isLt (by simp)
  | cons a t ih =>
    intro i hp hmin
    rcases i with ⟨iv, hi⟩
    cases iv with
    | zero =>
      simp only [List.get] at hp ⊢
      simp [List.find?_cons_of_pos, hp]
    | succ k =>
      have ha : p a = false := by
        have h0 := hmin ⟨0, Nat.succ_pos _⟩ (Nat.succ_pos k)
        simpa using h0
      rw [List.find?_cons_of_neg _ (by simp [ha])]
      have hk : k < t.length := Nat.lt_of_succ_lt_succ hi
      have hp' : p (t.get ⟨k, hk⟩) = true := by simpa using hp
      have hmin' : ∀ j : Fin t.length, (j : ℕ) < k → p (t.get j) = false := by
        intro j hj
        have hs := hmin ⟨j.val + 1, Nat.succ_lt_succ j.isLt⟩ (Nat.succ_lt_succ hj)
        simpa using hs
      simpa using ih ⟨k, hk⟩ hp' hmin'

/-- Setting a field makes it readable back. -/
theorem getField_setField_self (o : Obj) (k : String) (v : Val) :
    getField (setField o k v) k = some v := by
  induction o with
  | nil => simp [setField, getField]
  | cons kv rest ih =>
    rcases kv with ⟨k', v'⟩
    by_cases h : k' = k
    · simp [setField, h, getField]
    · simp [setField, h, getField, ih]

/-- Setting a field leaves every other field unchanged. -/
theorem getField_setField_of_ne (o : Obj) (k key : String) (v : Val) (h : key ≠ k) :
    getField (setField o k v) key = getField o key := by
  have hk : k ≠ key := Ne.symm h
  induction o with
  | nil => simp [setField, getField, hk]
  | cons kv rest ih =>
    rcases kv with ⟨k', v'⟩
    by_cases h1 : k' = k
    · subst h1
      simp [setField, getField, hk]
    · simp [setField, getField, h1, ih]

/-- `getIDfromObject` either fails with `idNotFound` or succeeds. -/
theorem getIDfromObject_eq (o : Option String) :
    getIDfromObject o = .error .idNotFound ∨ ∃ s, getIDfromObject o = .ok s := by
  cases o with
  | none => exact Or.inl rfl
  | some s =>
    by_cases h : s = ""
    · exact Or.inl (by simp [getIDfromObject, h])
    · exact Or.inr ⟨s, by simp [getIDfromObject, h]⟩

/-- An empty deferred identifier makes `getIDfromObject` fail. -/
theorem getIDfromObject_error_of_empty (o : Option String) (h : emptyID o) :
    getIDfromObject o = .error .idNotFound := by
  rcases h with h | h <;> subst h <;> simp [getIDfromObject]

end HelperLemmas

/-- C1: for every session-handle input, the URL branch of `getEMRType`
returns the vendor of the first entry of `EMR_MAPPING` (in the fixed source
order cerner, smarthealthit, epic, ecw, platform.athenahealth.com,
fhirapi.athenahealth.com) whose substring occurs in `serverUrl`, and
`EMR.NONE` when no entry's substring occurs. -/
theorem getEMRType_first_match (s : String) :
    (∀ i : Fin EMR_MAPPING.length,
        strIncludes s (EMR_MAPPING.get i).1 = true →
        (∀ j : Fin EMR_MAPPING.length, (j : ℕ) < (i : ℕ) →
          strIncludes s (EMR_MAPPING.get j).1 = false) →
        getEMRTypeFromUrl s = (EMR_MAPPING.get i).2) ∧
    ((∀ p ∈ EMR_MAPPING, strIncludes s p.1 = false) →
        getEMRTypeFromUrl s = EMR.NONE) ∧
    (∀ (o : Obj) (stFields : Obj), getField o "state" = some (Val.obj stFields) →
        getField stFields "serverUrl" = some (Val.str s) →
        getEMRType o = .ok (getEMRTypeFromUrl s)) := by
  refine ⟨?_, ?_, ?_⟩
  · intro i hp hmin
    have h := find?_first (fun p => strIncludes s p.1) EMR_MAPPING i hp hmin
    simp [getEMRTypeFromUrl, h]
  · intro h
    have hn : EMR_MAPPING.find? (fun p => strIncludes s p.1) = none :=
      List.find?_eq_none.mpr (by intro x hx; simp [h x hx])
    simp [getEMRTypeFromUrl, hn]
  · intro o stFields h1 h2
    simp [getEMRType, h1, propGet, h2]

/-- Witness for C1: `"smarthealthit"` is entry 1 of the table, the earlier
`"cerner"` entry does not match this URL, and resolution returns `SMART`;
a URL matching no entry yields `NONE`. -/
theorem getEMRType_first_match_witness :
    strIncludes "https://launch.smarthealthit.org/v/r4/fhir" "smarthealthit" = true ∧
    getEMRTypeFromUrl "https://launch.smarthealthit.org/v/r4/fhir" = EMR.SMART ∧
    getEMRTypeFromUrl "https://gitlab.com/" = EMR.NONE ∧
    getEMRType [("state", Val.obj
        [("serverUrl", Val.str "https://fhir-ehr-code.cerner.com/r4/abc")])] =
      .ok EMR.CERNER :=
  ⟨by decide,
   (getEMRType_first_match "https://launch.smarthealthit.org/v/r4/fhir").1
     ⟨1, by decide⟩ (by decide) (by decide),
   (getEMRType_first_match "https://gitlab.com/").2.1 (by decide),
   (getEMRType_first_match "https://fhir-ehr-code.cerner.com/r4/abc").2.2
     [("state", Val.obj [("serverUrl", Val.str "https://fhir-ehr-code.cerner.com/r4/abc")])]
     [("serverUrl", Val.str "https://fhir-ehr-code.cerner.com/r4/abc")] rfl rfl⟩

/-- C2: hydration of a resource that already has `subject` and `encounter`
returns it unchanged (no field overwritten); hydration of one with neither
returns it with exactly the session-derived `subject` field and the
`context` field (one-element encounter reference array plus a period whose
start and end are the current timestamp) populated, every other field
unchanged. -/
theorem hydrateResource_enrichment (c : SubClient) (r : Obj) :
    (hasKey r "subject" = true → hasKey r "encounter" = true →
      hydrateResource c r = .ok r) ∧
    (hasKey r "subject" = false → hasKey r "encounter" = false →
      ∀ pid eid, getIDfromObject c.patient = .ok pid →
        getIDfromObject c.encounter = .ok eid →
        ∃ r', hydrateResource c r = .ok r' ∧
          getField r' "subject" =
            some (Val.obj [("reference", Val.str ("Patient/" ++ pid))]) ∧
          getField r' "context" =
            some (Val.obj
              [("encounter", Val.arr [Val.obj [("reference", Val.str ("Encounter/" ++ eid))]]),
               ("period", Val.obj [("start", Val.str c.nowISO), ("end", Val.str c.nowISO)])]) ∧
          ∀ k, k ≠ "subject" → k ≠ "context" → getField r' k = getField r k) := by
  constructor
  · intro h1 h2
    simp [hydrateResource, h1, h2, spreadInto]
    rfl
  · intro h1 h2 pid eid hp he
    have hsubj : createPatientSubject c =
        .ok [("subject", Val.obj [("reference", Val.str ("Patient/" ++ pid))])] := by
      simp [createPatientSubject, hp]
    have hctx : createContext c =
        .ok [("context", Val.obj
          [("encounter", Val.arr [Val.obj [("reference", Val.str ("Encounter/" ++ eid))]]),
           ("period", Val.obj [("start", Val.str c.nowISO), ("end", Val.str c.nowISO)])])] := by
      simp [createContext, createEncounterReferenceArray, createEncounterReference, he,
        createPeriod]
    refine ⟨setField (setField r "subject"
        (Val.obj [("reference", Val.str ("Patient/" ++ pid))])) "context"
        (Val.obj
          [("encounter", Val.arr [Val.obj [("reference", Val.str ("Encounter/" ++ eid))]]),
           ("period", Val.obj [("start", Val.str c.nowISO), ("end", Val.str c.nowISO)])]),
      ?_, ?_, ?_, ?_⟩
    · simp [hydrateResource, h1, h2, hsubj, hctx, spreadInto]
    · rw [getField_setField_of_ne _ _ _ _ (by decide)]
      exact getField_setField_self _ _ _
    · exact getField_setField_self _ _ _
    · intro k hks hkc
      rw [getField_setField_of_ne _ _ _ _ hkc, getField_setField_of_ne _ _ _ _ hks]

/-- A session whose deferred identifiers all resolve. -/
def readySession : SubClient where
  serverUrl := "https://fhir-ehr-code.cerner.com/r4/abc"
  patient := some "p1"
  encounter := some "e1"
  user := some "u1"
  nowISO := "2024-05-01T12:00:00.000Z"
  createOp := fun o => .ok o
  userRead := .ok [("resourceType", Val.str "Practitioner"), ("id", Val.str "u1")]

/-- An Observation that already carries its own subject and encounter. -/
def contextedObservation : Obj :=
  [("resourceType", Val.str "Observation"),
   ("subject", Val.obj [("reference", Val.str "Patient/p9")]),
   ("encounter", Val.obj [("reference", Val.str "Encounter/e9")])]

/-- An Observation with neither subject nor encounter. -/
def bareObservation : Obj :=
  [("resourceType", Val.str "Observation"), ("status", Val.str "final")]

/-- Witness for C2 at a resolving session: a fully contexted resource is
returned unchanged, and a bare one is enriched with exactly `subject` and
`context`. -/
theorem hydrateResource_enrichment_witness :
    hydrateResource readySession contextedObservation = .ok contextedObservation ∧
    (∃ r', hydrateResource readySession bareObservation = .ok r' ∧
      getField r' "subject" = some (Val.obj [("reference", Val.str "Patient/p1")]) ∧
      getField r' "context" = some (Val.obj
        [("encounter", Val.arr [Val.obj [("reference", Val.str "Encounter/e1")]]),
         ("period", Val.obj [("start", Val.str readySession.nowISO),
                             ("end", Val.str readySession.nowISO)])]) ∧
      ∀ k, k ≠ "subject" → k ≠ "context" →
        getField r' k = getField bareObservation k) :=
  ⟨(hydrateResource_enrichment readySession contextedObservation).1 rfl rfl,
   (hydrateResource_enrichment readySession bareObservation).2 rfl rfl "p1" "e1" rfl rfl⟩

/-- C3: when the session's underlying `create` rejects, `BaseClient.create`
rejects with the wrapping error carrying the original cause (the `.catch`
rethrow of `"It failed with:" + reason`), and no resource is returned. -/
theorem create_wraps_transport_failure (c : SubClient) (resource t h : Obj) (e : Err)
    (ht : Transformer.toFhirClientType resource = .ok t)
    (hh : hydrateResource c t = .ok h)
    (hc : c.createOp h = .error e) :
    create c resource = .error (.createFailed e) := by
  simp [create, createWithLog, ht, hh, hc]

/-- A session identical to `readySession` except that its `create` primitive
always rejects. -/
def failingCreateSession : SubClient where
  serverUrl := "https://fhir.epic.com/interconnect-fhir-oauth"
  patient := some "p1"
  encounter := some "e1"
  user := some "u1"
  nowISO := "2024-05-01T12:00:00.000Z"
  createOp := fun _ => .error .invalidResponse
  userRead := .ok [("resourceType", Val.str "Practitioner"), ("id", Val.str "u1")]

/-- Witness for C3: creating an already-contexted Observation through the
rejecting session yields the wrapped error and nothing else. -/
theorem create_wraps_transport_failure_witness :
    Transformer.toFhirClientType contextedObservation = .ok contextedObservation ∧
    create failingCreateSession contextedObservation =
      .error (.createFailed .invalidResponse) :=
  ⟨rfl, create_wraps_transport_failure failingCreateSession contextedObservation
      contextedObservation contextedObservation .invalidResponse rfl rfl rfl⟩

/-- C4: endpoint lookup for `SMART` and `NONE` always throws
`Endpoints not found for EMR type`, never yielding a default triple, while
lookup for `EPIC` always returns the one fixed token/resource/authorize
triple (lookup is a pure function of the tag, so these equalities hold for
every call). -/
theorem getEndpointsForEmr_smart_none_epic :
    getEndpointsForEmr .SMART = .error (.endpointsNotFound .SMART) ∧
    getEndpointsForEmr .NONE = .error (.endpointsNotFound .NONE) ∧
    getEndpointsForEmr .EPIC =
      .ok ⟨EpicClient.TOKEN_ENDPOINT, EpicClient.R4_ENDPOINT,
           EpicClient.AUTHORIZE_ENDPOINT⟩ :=
  ⟨rfl, rfl, rfl⟩

/-- C5: on every canonical resource carrying a `resourceType`, the
session-shape transformation followed by the canonical transformation is the
identity. -/
theorem transformer_roundtrip (r : Obj) (h : hasKey r "resourceType" = true) :
    (Transformer.toFhirClientType r).bind Transformer.toR4FhirType = .ok r := by
  simp [Transformer.toFhirClientType, Transformer.toR4FhirType, h, Except.bind]

/-- Witness for C5 on a concrete Observation. -/
theorem transformer_roundtrip_witness :
    hasKey bareObservation "resourceType" = true ∧
    (Transformer.toFhirClientType bareObservation).bind Transformer.toR4FhirType =
      .ok bareObservation :=
  ⟨rfl, transformer_roundtrip bareObservation rfl⟩

/-- A JWT claims object: it has the Epic launch-context claim key but, like
every plain JWT payload, no `state` field. -/
def epicJWT : Obj :=
  [("client_id", Val.str "my-app"), ("epic.eci", Val.str "urn:epic:eci.v1")]

/-- C6 (failing-input evaluation): on a token-like input with the Epic claim
key and no `state` field — hence no `serverUrl` — `getEMRType` raises the
TypeError of evaluating `clientOrToken.state.serverUrl` instead of
returning `EPIC`. -/
theorem getEMRType_jwt_typeError :
    hasKey epicJWT "epic.eci" = true ∧
    hasKey epicJWT "state" = false ∧
    getEMRType epicJWT = .error .typeError :=
  ⟨rfl, rfl, rfl⟩

/-- C7: when a required identifier requested during hydration resolves to
empty, `create` fails with the id-not-found error and the session's `create`
primitive is never invoked (the instrumentation flag stays `false`). In
`BaseClient.create` the identifiers requested are the patient (when the
resource lacks `subject`) and the encounter (when it lacks `encounter`);
the user identifier is never requested on this path. -/
theorem create_missing_identifier_before_network (c : SubClient) (resource t : Obj)
    (ht : Transformer.toFhirClientType resource = .ok t)
    (hid : (hasKey t "subject" = false ∧ emptyID c.patient) ∨
           (hasKey t "encounter" = false ∧ emptyID c.encounter)) :
    createWithLog c resource = (.error .idNotFound, false) := by
  have hhyd : hydrateResource c t = .error .idNotFound := by
    rcases hid with ⟨hs, hp⟩ | ⟨he, hp⟩
    · have hps : createPatientSubject c = .error .idNotFound := by
        simp [createPatientSubject, getIDfromObject_error_of_empty c.patient hp]
      simp [hydrateResource, hs, hps, Except.bind]
    · have hcc : createContext c = .error .idNotFound := by
        simp [createContext, createEncounterReferenceArray, createEncounterReference,
          getIDfromObject_error_of_empty c.encounter hp]
      by_cases hs : hasKey t "subject"
      · simp [hydrateResource, hs, he, hcc, Except.bind, Except.map]
      · rcases getIDfromObject_eq c.patient with hp2 | ⟨s, hp2⟩
        · simp [hydrateResource, hs, createPatientSubject, hp2, Except.bind]
        · simp [hydrateResource, hs, he, createPatientSubject, hp2, hcc, Except.bind, Except.map]
  simp [createWithLog, ht, hhyd]

/-- A session whose patient identifier never resolves. -/
def noPatientSession : SubClient where
  serverUrl := "https://fhir.epic.com/interconnect-fhir-oauth"
  patient := none
  encounter := some "e1"
  user := some "u1"
  nowISO := "2024-05-01T12:00:00.000Z"
  createOp := fun o => .ok o
  userRead := .ok [("resourceType", Val.str "Practitioner"), ("id", Val.str "u1")]

/-- Witness for C7: creating a subject-less Observation on a session with no
patient identifier fails before the (otherwise succeeding) network create
runs. -/
theorem create_missing_identifier_before_network_witness :
    createWithLog noPatientSession bareObservation = (.error .idNotFound, false) :=
  create_missing_identifier_before_network noPatientSession bareObservation bareObservation
    rfl (Or.inl ⟨rfl, Or.inl rfl⟩)

/-- C8: `constructEndpoints` fails with the error naming the first missing
endpoint whenever any argument is `undefined`, checking token, then r4, then
authorize, and assembles the triple from the three strings when all are
defined. -/
theorem constructEndpoints_validates (t r a : Option String) :
    (t = none →
      constructEndpoints t r a = .error (.missingEndpoint "Token Endpoint not defined")) ∧
    (∀ ts, t = some ts → r = none →
      constructEndpoints t r a = .error (.missingEndpoint "R4 Endpoint not defined")) ∧
    (∀ ts rs, t = some ts → r = some rs → a = none →
      constructEndpoints t r a = .error (.missingEndpoint "Auth Endpoint not defined")) ∧
    (∀ ts rs av, t = some ts → r = some rs → a = some av →
      constructEndpoints t r a = .ok ⟨ts, rs, av⟩) := by
  refine ⟨fun h => ?_, fun ts h1 h2 => ?_, fun ts rs h1 h2 h3 => ?_,
    fun ts rs av h1 h2 h3 => ?_⟩ <;> subst_vars <;> rfl

/-- Witness for C8: the Cerner constants assemble into their triple, and a
missing token endpoint is reported as such. -/
theorem constructEndpoints_validates_witness :
    constructEndpoints (some CernerClient.TOKEN_ENDPOINT) (some CernerClient.R4_ENDPOINT)
        (some CernerClient.AUTHORIZE_ENDPOINT) =
      .ok ⟨CernerClient.TOKEN_ENDPOINT, CernerClient.R4_ENDPOINT,
           CernerClient.AUTHORIZE_ENDPOINT⟩ ∧
    constructEndpoints none (some CernerClient.R4_ENDPOINT) none =
      .error (.missingEndpoint "Token Endpoint not defined") :=
  ⟨(constructEndpoints_validates _ _ _).2.2.2 _ _ _ rfl rfl rfl,
   (constructEndpoints_validates none (some CernerClient.R4_ENDPOINT) none).1 rfl⟩

/-- C9: `getPractitionerRead` on a session whose resolved user resource has
`resourceType` `"Practitioner"` returns that resource in canonical shape,
and on one whose `resourceType` is any other string fails with the
`User is Not a Practitioner` error, never returning the mismatched
entity. -/
theorem getPractitionerRead_type_guard (c : SubClient) (u : Obj)
    (hu : c.userRead = .ok u) :
    (getField u "resourceType" = some (Val.str "Practitioner") →
      getPractitionerRead c = .ok u) ∧
    (∀ s, getField u "resourceType" = some (Val.str s) → s ≠ "Practitioner" →
      getPractitionerRead c = .error .userNotPractitioner) := by
  constructor
  · intro h
    have hk : hasKey u "resourceType" = true := by simp [hasKey, h]
    simp [getPractitionerRead, hu, h, Transformer.toR4FhirType, hk, Except.bind]
  · intro s h hne
    simp [getPractitionerRead, hu, h, hne, Except.bind]

/-- A session whose resolved user is a Patient, not a Practitioner. -/
def patientUserSession : SubClient where
  serverUrl := "https://fhir.epic.com/interconnect-fhir-oauth"
  patient := some "p1"
  encounter := some "e1"
  user := some "u1"
  nowISO := "2024-05-01T12:00:00.000Z"
  createOp := fun o => .ok o
  userRead := .ok [("resourceType", Val.str "Patient"), ("id", Val.str "u1")]

/-- Witness for C9: the Patient-typed user is rejected; the
Practitioner-typed user of `readySession` is returned. -/
theorem getPractitionerRead_type_guard_witness :
    getPractitionerRead patientUserSession = .error .userNotPractitioner ∧
    getPractitionerRead readySession =
      .ok [("resourceType", Val.str "Practitioner"), ("id", Val.str "u1")] :=
  ⟨(getPractitionerRead_type_guard patientUserSession
      [("resourceType", Val.str "Patient"), ("id", Val.str "u1")] rfl).2
      "Patient" rfl (by decide),
   (getPractitionerRead_type_guard readySession
      [("resourceType", Val.str "Practitioner"), ("id", Val.str "u1")] rfl).1 rfl⟩

/-- C10: whenever the factory's own vendor resolution yields any tag other
than `CERNER` or `EPIC` — in particular `SMART` and `NONE` — `createEMRClient`
silently constructs the Epic variant bound to the same session. -/
theorem createEMRClient_epic_default (c : SubClient)
    (h1 : factoryGetEMRType c ≠ .CERNER) (h2 : factoryGetEMRType c ≠ .EPIC) :
    createEMRClient c = (.epicClient, c) := by
  unfold createEMRClient
  cases h : factoryGetEMRType c <;>
    first
      | rfl
      | exact absurd h h2
      | exact absurd h h1

/-- A session on a generic SMART sandbox server. -/
def smartSession : SubClient where
  serverUrl := "https://launch.smarthealthit.org/v/r4/fhir"
  patient := some "p1"
  encounter := some "e1"
  user := some "u1"
  nowISO := "2024-05-01T12:00:00.000Z"
  createOp := fun o => .ok o
  userRead := .ok [("resourceType", Val.str "Practitioner"), ("id", Val.str "u1")]

/-- Witness for C10: the SMART sandbox session resolves to `SMART`, which is
neither `CERNER` nor `EPIC`, and the factory hands back an `EpicClient` on
that session. -/
theorem createEMRClient_epic_default_witness :
    factoryGetEMRType smartSession = EMR.SMART ∧
    createEMRClient smartSession = (.epicClient, smartSession) :=
  ⟨rfl, createEMRClient_epic_default smartSession (by decide) (by decide)⟩

end SmarterFhir
